import Mathlib

/-!
Verification development for the DVSA driving-test reschedule bot
(`main.py`, `util.py`, `clicker.py`).

The Python sources are shallowly embedded: pure string/date logic is
translated to Lean functions; the browser is replaced by an explicit
environment that supplies the data the code reads from it (page
classifications, page sources, element presence); exceptions that the
source catches are modelled by the value the handler produces, and
environment flags say whether a fallible external call raises.  Side
effects on the browser (clicks, typing, refreshes, sleeps) are recorded
as an explicit event trace.
-/

/- ========================================================================
   String model: Python substring tests and ASCII lowering
   ======================================================================== -/

/-- ASCII character lowering, modelling Python `str.lower` on the ASCII
text this program matches against. -/
def lowerChar (c : Char) : Char :=
  if 65 ≤ c.toNat ∧ c.toNat ≤ 90 then Char.ofNat (c.toNat + 32) else c

/-- Lowering of a whole string (model of Python `str.lower`). -/
def lowerStr (s : String) : String := ⟨s.data.map lowerChar⟩

/-- `leadsChars p s` holds when the character list `p` is an initial
segment of `s` (helper for the substring test). -/
def leadsChars : List Char → List Char → Bool
  | [], _ => true
  | _ :: _, [] => false
  | a :: as, b :: bs => a == b && leadsChars as bs

/-- `occursChars p s` holds when `p` occurs contiguously inside `s`. -/
def occursChars (p : List Char) : List Char → Bool
  | [] => leadsChars p []
  | l@(_ :: rest) => leadsChars p l || occursChars p rest

/-- Model of the Python membership test `pat in s` on strings. -/
def strContains (s pat : String) : Bool := occursChars pat.data s.data

theorem leadsChars_map (f : Char → Char) :
    ∀ p s : List Char, leadsChars p s = true → leadsChars (p.map f) (s.map f) = true
  | [], _, _ => rfl
  | _ :: _, [], h => by simp [leadsChars] at h
  | a :: as, b :: bs, h => by
      simp only [leadsChars, Bool.and_eq_true, beq_iff_eq] at h
      simp only [List.map, leadsChars, Bool.and_eq_true, beq_iff_eq]
      exact ⟨by rw [h.1], leadsChars_map f as bs h.2⟩

theorem occursChars_map (f : Char → Char) (p : List Char) :
    ∀ s : List Char, occursChars p s = true → occursChars (p.map f) (s.map f) = true := by
  intro s
  induction s with
  | nil =>
      intro h
      cases p with
      | nil => rfl
      | cons a as => simp [occursChars, leadsChars] at h
  | cons b bs ih =>
      intro h
      simp only [occursChars, Bool.or_eq_true] at h ⊢
      rcases h with h | h
      · exact Or.inl (leadsChars_map f p (b :: bs) h)
      · exact Or.inr (ih h)

/-- Raw substring occurrence survives lowering on both sides. -/
theorem strContains_lower (s pat : String) (h : strContains s pat = true) :
    strContains (lowerStr s) (lowerStr pat) = true :=
  occursChars_map lowerChar pat.data s.data h

/- ========================================================================
   Page classifier (util.check_firewall_and_queue)
   ======================================================================== -/

/-- The five page classifications produced by `check_firewall_and_queue`. -/
inductive PageState where
  | queue
  | firewall
  | login_required
  | error
  | ok
deriving DecidableEq, Repr

/-- Queue-domain fragment looked up in the current URL. -/
def queueDomain : String := "queue.driverpracticaltest.dvsa.gov.uk"

/-- First half of the Imperva firewall signature. -/
def fwSig1 : String := "request unsuccessful"

/-- Second half of the Imperva firewall signature. -/
def fwSig2 : String := "incident id"

/-- Login-page banner text. -/
def loginBanner : String := "enter details below to access your booking"

/-- DVSA error-page marker. -/
def oopsText : String := "oops"

/-- Model of `util.check_firewall_and_queue`: classify the current page
from its URL and source, lowering both and applying the source's
first-match chain (queue URL, firewall signature, login banner, "oops",
otherwise ok). -/
def check_firewall_and_queue (currentUrl pageSource : String) : PageState :=
  if strContains (lowerStr currentUrl) queueDomain then .queue
  else if strContains (lowerStr pageSource) fwSig1 &&
          strContains (lowerStr pageSource) fwSig2 then .firewall
  else if strContains (lowerStr pageSource) loginBanner then .login_required
  else if strContains (lowerStr pageSource) oopsText then .error
  else .ok

theorem lowerStr_queueDomain : lowerStr queueDomain = queueDomain := by decide

theorem lowerStr_fwSig1 : lowerStr fwSig1 = fwSig1 := by decide

theorem lowerStr_fwSig2 : lowerStr fwSig2 = fwSig2 := by decide

/-- C3: the classifier returns exactly one state from
{queue, firewall, login_required, error, ok}, decided by first-match
priority (queue URL, then firewall signature, then login banner, then
"oops", else ok); any URL containing the queue domain yields `queue`
regardless of content, and a page containing both halves of the firewall
signature yields `firewall` whenever the queue-URL check has not already
fired — in particular when the login banner is also present. -/
theorem check_firewall_and_queue_spec (currentUrl pageSource : String) :
    (check_firewall_and_queue currentUrl pageSource ∈
      [PageState.queue, .firewall, .login_required, .error, .ok]) ∧
    (strContains currentUrl queueDomain = true →
      check_firewall_and_queue currentUrl pageSource = .queue) ∧
    (strContains (lowerStr currentUrl) queueDomain = false →
      strContains pageSource fwSig1 = true →
      strContains pageSource fwSig2 = true →
      check_firewall_and_queue currentUrl pageSource = .firewall) ∧
    (strContains (lowerStr currentUrl) queueDomain = false →
      (strContains (lowerStr pageSource) fwSig1 &&
        strContains (lowerStr pageSource) fwSig2) = false →
      strContains (lowerStr pageSource) loginBanner = true →
      check_firewall_and_queue currentUrl pageSource = .login_required) ∧
    (strContains (lowerStr currentUrl) queueDomain = false →
      (strContains (lowerStr pageSource) fwSig1 &&
        strContains (lowerStr pageSource) fwSig2) = false →
      strContains (lowerStr pageSource) loginBanner = false →
      strContains (lowerStr pageSource) oopsText = true →
      check_firewall_and_queue currentUrl pageSource = .error) ∧
    (strContains (lowerStr currentUrl) queueDomain = false →
      (strContains (lowerStr pageSource) fwSig1 &&
        strContains (lowerStr pageSource) fwSig2) = false →
      strContains (lowerStr pageSource) loginBanner = false →
      strContains (lowerStr pageSource) oopsText = false →
      check_firewall_and_queue currentUrl pageSource = .ok) := by
  refine ⟨?_, ?_, ?_, ?_, ?_, ?_⟩
  · unfold check_firewall_and_queue
    split
    · simp
    · split
      · simp
      · split
        · simp
        · split <;> simp
  · intro h
    have h2 := strContains_lower currentUrl queueDomain h
    rw [lowerStr_queueDomain] at h2
    unfold check_firewall_and_queue
    rw [h2]
    rfl
  · intro hq h1 h2
    have h1l := strContains_lower pageSource fwSig1 h1
    have h2l := strContains_lower pageSource fwSig2 h2
    rw [lowerStr_fwSig1] at h1l
    rw [lowerStr_fwSig2] at h2l
    unfold check_firewall_and_queue
    rw [hq, h1l, h2l]
    rfl
  · intro hq hfw hl
    unfold check_firewall_and_queue
    rw [hq, hfw, hl]
    rfl
  · intro hq hfw hl ho
    unfold check_firewall_and_queue
    rw [hq, hfw, hl, ho]
    rfl
  · intro hq hfw hl ho
    unfold check_firewall_and_queue
    rw [hq, hfw, hl, ho]
    rfl

/-- C3 witness: concrete classifications through the theorem — a
queue-domain URL classifies as `queue` whatever the content, and a page
showing both the firewall signature and the login banner classifies as
`firewall`. -/
theorem check_firewall_and_queue_spec_witness :
    check_firewall_and_queue
      "https://queue.driverpracticaltest.dvsa.gov.uk/?c=dvsatars"
      "Request unsuccessful. Incident ID: 77" = .queue ∧
    check_firewall_and_queue
      "https://driverpracticaltest.dvsa.gov.uk/login"
      "request unsuccessful. incident id: 77. enter details below to access your booking."
      = .firewall :=
  ⟨(check_firewall_and_queue_spec _ _).2.1 (by decide),
   (check_firewall_and_queue_spec _ _).2.2.1 (by decide) (by decide) (by decide)⟩

/- ========================================================================
   Date model (the fragment of Python datetime the scanner uses)
   ======================================================================== -/

/-- Gregorian leap-year test. -/
def isLeap (y : Nat) : Bool := y % 4 == 0 && (y % 100 != 0 || y % 400 == 0)

/-- Days in a month of the proleptic Gregorian calendar. -/
def daysInMonth (y m : Nat) : Nat :=
  if m == 2 then (if isLeap y then 29 else 28)
  else if m == 4 || m == 6 || m == 9 || m == 11 then 30
  else 31

/-- Days in all years strictly before year `y` (year 1 is the first). -/
def daysBeforeYear (y : Nat) : Nat :=
  365 * (y - 1) + (y - 1) / 4 - (y - 1) / 100 + (y - 1) / 400

/-- Days in the months of year `y` strictly before month `m`. -/
def daysBeforeMonth (y m : Nat) : Nat :=
  (if m > 1 then 31 else 0) + (if m > 2 then (if isLeap y then 29 else 28) else 0) +
  (if m > 3 then 31 else 0) + (if m > 4 then 30 else 0) + (if m > 5 then 31 else 0) +
  (if m > 6 then 30 else 0) + (if m > 7 then 31 else 0) + (if m > 8 then 31 else 0) +
  (if m > 9 then 30 else 0) + (if m > 10 then 31 else 0) + (if m > 11 then 30 else 0)

/-- A validated calendar date. -/
structure PDate where
  y : Nat
  m : Nat
  d : Nat
deriving DecidableEq, Repr

/-- Proleptic Gregorian ordinal, as in Python `date.toordinal`
(0001-01-01 has ordinal 1). -/
def toOrd (dt : PDate) : Nat := daysBeforeYear dt.y + daysBeforeMonth dt.y dt.m + dt.d

/-- Weekday from an ordinal, as in Python `date.weekday` (Monday = 0). -/
def weekdayOrd (o : Nat) : Nat := (o - 1) % 7

/-- A datetime value: date ordinal plus minutes past midnight (the only
precision the scanner's comparisons need). -/
structure PDateTime where
  ord : Nat
  mins : Nat
deriving DecidableEq, Repr

/-- Strict datetime comparison (Python `<` on datetimes). -/
def dtLtB (a b : PDateTime) : Bool :=
  a.ord < b.ord || (a.ord == b.ord && a.mins < b.mins)

/-- Split a character list at every occurrence of `sep`, modelling
Python `str.split` with a single-character separator. -/
def splitOnChar (sep : Char) : List Char → List (List Char)
  | [] => [[]]
  | c :: rest =>
    if c == sep then [] :: splitOnChar sep rest
    else
      match splitOnChar sep rest with
      | h :: t => (c :: h) :: t
      | [] => [[c]]

/-- All characters are ASCII digits. -/
def allDigits (l : List Char) : Bool := l.all (fun c => c.isDigit)

/-- Numeric value of a digit list (only meaningful under `allDigits`). -/
def digitsVal (l : List Char) : Nat := l.foldl (fun n c => n * 10 + (c.toNat - 48)) 0

/-- A digit field of between `lo` and `hi` characters, as matched by a
strptime numeric directive. -/
def digitField (lo hi : Nat) (l : List Char) : Bool :=
  lo ≤ l.length && l.length ≤ hi && allDigits l

/-- Model of Python `datetime.strptime(s, "%Y-%m-%d")`: `none` models the
`ValueError` the source lets escape to its outer handler. -/
def parseYmd (s : String) : Option PDate :=
  match splitOnChar (Char.ofNat 45) s.data with
  | [ys, ms, ds] =>
    if digitField 1 4 ys && digitField 1 2 ms && digitField 1 2 ds then
      let y := digitsVal ys
      let m := digitsVal ms
      let d := digitsVal ds
      if 1 ≤ y && 1 ≤ m && m ≤ 12 && 1 ≤ d && d ≤ daysInMonth y m then
        some ⟨y, m, d⟩
      else none
    else none
  | _ => none

/-- Full month names, lowered, in order. -/
def monthNames : List String :=
  ["january", "february", "march", "april", "may", "june", "july",
   "august", "september", "october", "november", "december"]

/-- Full weekday names, lowered, in order. -/
def weekdayNames : List String :=
  ["monday", "tuesday", "wednesday", "thursday", "friday", "saturday", "sunday"]

/-- Month number from a name, case-insensitively, as Python strptime %B. -/
def monthFromName (l : List Char) : Option Nat :=
  match monthNames.indexOf? (lowerStr ⟨l⟩) with
  | some i => some (i + 1)
  | none => none

/-- Model of Python strptime's `%I:%M%p` fragment: returns minutes past
midnight.  The hour is 1–12, minutes 0–59, AM/PM case-insensitive, with
12AM mapping to hour 0 and 12PM staying 12. -/
def parseTimeIMp (l : List Char) : Option Nat :=
  match splitOnChar (Char.ofNat 58) l with
  | [hs, rest] =>
    let md := rest.takeWhile Char.isDigit
    let ap := lowerStr ⟨rest.dropWhile Char.isDigit⟩
    if digitField 1 2 hs && digitField 1 2 md && (ap == "am" || ap == "pm") then
      let h := digitsVal hs
      let mi := digitsVal md
      if 1 ≤ h && h ≤ 12 && mi ≤ 59 then
        let h24 := if ap == "pm" then (if h == 12 then 12 else h + 12)
                   else (if h == 12 then 0 else h)
        some (h24 * 60 + mi)
      else none
    else none
  | _ => none

/-- Model of Python `datetime.strptime(s, "%A %d %B %Y %I:%M%p")`, the
current-test-date format (e.g. "Wednesday 15 December 2025 2:43PM"); the
weekday name must be valid but is otherwise ignored, as in Python. -/
def parseCurrentTest (s : String) : Option PDateTime :=
  match splitOnChar (Char.ofNat 32) s.data with
  | [wd, dstr, mon, ystr, tstr] =>
    if weekdayNames.contains (lowerStr ⟨wd⟩) &&
       digitField 1 2 dstr && digitField 1 4 ystr then
      match monthFromName mon, parseTimeIMp tstr with
      | some m, some mins =>
        let d := digitsVal dstr
        let y := digitsVal ystr
        if 1 ≤ y && 1 ≤ d && d ≤ daysInMonth y m then
          some ⟨toOrd ⟨y, m, d⟩, mins⟩
        else none
      | _, _ => none
    else none
  | _ => none

/-- The far-future default bound 2050-12-12 used by the scanner. -/
def farFuture : PDateTime := ⟨toOrd ⟨2050, 12, 12⟩, 0⟩

/-- The scanner's minimum-date bound: 2050-12-12 when the current test
date is marked "Yes" or does not parse, else the parsed current test
datetime minus one day (falling back to the default if the subtraction
underflows, as Python's OverflowError would be caught by the bare
except); an explicit parseable before-date overrides when earlier.
`none` models a ValueError from an invalid explicit before-date. -/
def computeMinDate (currentTest beforeStr : String) : Option PDateTime :=
  let base :=
    if strContains currentTest "Yes" then farFuture
    else
      match parseCurrentTest currentTest with
      | some dt => if dt.ord ≤ 1 then farFuture else ⟨dt.ord - 1, dt.mins⟩
      | none => farFuture
  if beforeStr != "" && beforeStr != "None" then
    match parseYmd beforeStr with
    | some d =>
      let pb : PDateTime := ⟨toOrd d, 0⟩
      some (if dtLtB pb base then pb else base)
    | none => none
  else some base

/-- The scanner's maximum-date bound (`parse_or_default` with default
2000-01-01): `none` models a ValueError from an invalid after-date. -/
def computeMaxDate (afterStr : String) : Option PDateTime :=
  if afterStr == "" || afterStr == "None" then some ⟨toOrd ⟨2000, 1, 1⟩, 0⟩
  else
    match parseYmd afterStr with
    | some d => some ⟨toOrd d, 0⟩
    | none => none

example : weekdayOrd (toOrd ⟨2025, 1, 1⟩) = 2 := by decide
example : weekdayOrd (toOrd ⟨2025, 3, 15⟩) = 5 := by decide
example : weekdayOrd (toOrd ⟨2025, 3, 17⟩) = 0 := by decide
example : parseYmd "2025-03-17" = some ⟨2025, 3, 17⟩ := by decide
example : parseYmd "2025-02-30" = none := by decide
example : (parseCurrentTest "Wednesday 15 December 2025 2:43PM").isSome = true := by decide

/- ========================================================================
   Calendar scanner (util.scan_for_preferred_tests)
   ======================================================================== -/

/-- A calendar day cell as the scanner sees it: its class attribute
(`""` when absent, as the source's `or ""`), and its anchor — `none`
when `find_element` would raise `NoSuchElementException`, `some none`
when the anchor exists but `get_attribute("data-date")` yields `None`,
`some (some s)` when it yields the string `s`. -/
structure Cell where
  cls : String
  link : Option (Option String)
deriving DecidableEq, Repr

/-- Class fragment marking an unavailable day cell. -/
def unavailMark : String := "--unavailable"

/-- The per-cell loop of `scan_for_preferred_tests`.  An unavailable
cell is skipped without touching its anchor; an available cell without
an anchor is skipped (`NoSuchElementException` is passed); an available
cell whose data-date is `None` or unparseable aborts the whole scan with
the not-found triple (the `TypeError`/`ValueError` escapes the inner
`except NoSuchElementException` and is caught by the outer
`except Exception`, which returns `(False, None, None)`). -/
def scanLoop (minD maxD : PDateTime) (unav : List String) (fmt : String) :
    List Cell → Nat → Bool × Option String × Option Nat
  | [], _ => (false, none, none)
  | c :: rest, i =>
    if strContains c.cls unavailMark then scanLoop minD maxD unav fmt rest (i + 1)
    else
      match c.link with
      | none => scanLoop minD maxD unav fmt rest (i + 1)
      | some none => (false, none, none)
      | some (some s) =>
        match parseYmd s with
        | none => (false, none, none)
        | some d =>
          if !(unav.contains s) && dtLtB ⟨toOrd d, 0⟩ minD && dtLtB maxD ⟨toOrd d, 0⟩ &&
             weekdayOrd (toOrd d) < 5 && s != fmt then
            (true, some s, some i)
          else scanLoop minD maxD unav fmt rest (i + 1)

/-- Model of `util.scan_for_preferred_tests`.  `grid = none` models the
calendar body being absent (`NoSuchElementException` caught, returning
the not-found triple); a `none` from either date bound models the
`ValueError` of an invalid explicit bound, caught by the outer handler.
The third component of the result is the index of the returned day cell
(standing for the returned WebElement). -/
def scan_for_preferred_tests (grid : Option (List Cell))
    (beforeStr afterStr : String) (unav : List String)
    (currentTest fmt : String) : Bool × Option String × Option Nat :=
  match computeMinDate currentTest beforeStr, computeMaxDate afterStr with
  | some minD, some maxD =>
    match grid with
    | none => (false, none, none)
    | some days => scanLoop minD maxD unav fmt days 0
  | _, _ => (false, none, none)

/-- Claim-side filter, following the spec's words: an available day cell
whose parsed date is strictly before the minimum bound, strictly after
the maximum bound, not excluded, a weekday (Mon–Fri), and whose date
string differs from the formatted existing-test date. -/
def qualifies (minD maxD : PDateTime) (unav : List String) (fmt : String) (c : Cell) : Bool :=
  !(strContains c.cls unavailMark) &&
  match c.link with
  | some (some s) =>
    match parseYmd s with
    | some d =>
      !(unav.contains s) && dtLtB ⟨toOrd d, 0⟩ minD && dtLtB maxD ⟨toOrd d, 0⟩ &&
      weekdayOrd (toOrd d) < 5 && s != fmt
    | none => false
  | _ => false

/-- Claim-side scan: the first qualifying day in displayed order,
with its index. -/
def firstQualifying (minD maxD : PDateTime) (unav : List String) (fmt : String) :
    List Cell → Nat → Option (Nat × String)
  | [], _ => none
  | c :: rest, i =>
    match c.link with
    | some (some s) =>
      if qualifies minD maxD unav fmt c then some (i, s)
      else firstQualifying minD maxD unav fmt rest (i + 1)
    | _ => firstQualifying minD maxD unav fmt rest (i + 1)

/-- Every available cell that has an anchor carries a parseable
data-date (the shape of a normal DVSA calendar). -/
def wellFormedGrid (cells : List Cell) : Bool :=
  cells.all (fun c =>
    strContains c.cls unavailMark ||
    match c.link with
    | none => true
    | some none => false
    | some (some s) => (parseYmd s).isSome)

theorem scanLoop_firstQualifying (minD maxD : PDateTime) (unav : List String) (fmt : String) :
    ∀ (cells : List Cell) (i : Nat), wellFormedGrid cells = true →
      scanLoop minD maxD unav fmt cells i =
        (match firstQualifying minD maxD unav fmt cells i with
         | some js => (true, some js.2, some js.1)
         | none => (false, none, none)) := by
  intro cells
  induction cells with
  | nil => intro i _; rfl
  | cons c rest ih =>
    intro i hwf
    simp only [wellFormedGrid, List.all_cons, Bool.and_eq_true] at hwf
    have hrest : wellFormedGrid rest = true := hwf.2
    by_cases hm : strContains c.cls unavailMark = true
    · have hq : qualifies minD maxD unav fmt c = false := by
        simp [qualifies, hm]
      simp only [scanLoop, firstQualifying, hm, if_true, hq, if_false]
      rw [ih (i + 1) hrest]
      cases hl : c.link with
      | none => rfl
      | some a => cases a with
        | none => rfl
        | some s => simp [hq]
    · have hm' : strContains c.cls unavailMark = false := by
        simpa using hm
      cases hl : c.link with
      | none =>
        have hq : qualifies minD maxD unav fmt c = false := by
          simp [qualifies, hl]
        simp only [scanLoop, firstQualifying, hm', hl]
        exact ih (i + 1) hrest
      | some a =>
        cases a with
        | none =>
          exfalso
          have := hwf.1
          rw [hm', hl] at this
          simp at this
        | some s =>
          cases hp : parseYmd s with
          | none =>
            exfalso
            have := hwf.1
            rw [hm', hl] at this
            simp [hp] at this
          | some d =>
            have hq : qualifies minD maxD unav fmt c =
                (!(unav.contains s) && dtLtB ⟨toOrd d, 0⟩ minD &&
                  dtLtB maxD ⟨toOrd d, 0⟩ && weekdayOrd (toOrd d) < 5 && s != fmt) := by
              simp [qualifies, hm', hl, hp]
            simp only [scanLoop, firstQualifying, hm', hl, hp]
            rw [hq]
            by_cases hcond : (!(unav.contains s) && dtLtB ⟨toOrd d, 0⟩ minD &&
                dtLtB maxD ⟨toOrd d, 0⟩ && weekdayOrd (toOrd d) < 5 && s != fmt) = true
            · rw [if_pos hcond, if_pos hcond]
              simp
            · rw [if_neg hcond, if_neg hcond]
              exact ih (i + 1) hrest

/-- The spec's end-to-end fixture grid: 2025-03-10 (excluded),
2025-03-15 (Saturday), 2025-03-17 (Monday, qualifies). -/
def fixtureGrid : List Cell :=
  [⟨"BookingCalendar-date--bookable", some (some "2025-03-10")⟩,
   ⟨"BookingCalendar-date--bookable", some (some "2025-03-15")⟩,
   ⟨"BookingCalendar-date--bookable", some (some "2025-03-17")⟩]

/-- C4: over any well-formed grid the scanner returns the first day in
displayed order satisfying the spec's filter (date strictly before the
minimum bound — the earlier of the bound derived from the current test
date and the explicit before-date, as computed by `computeMinDate` —
strictly after the maximum bound, not excluded, a weekday, and not the
formatted existing-test date); and on the spec's fixture with
before-date 2025-06-01, after-date 2025-01-01, exclusion 2025-03-10 and
current test date "Yes" it returns 2025-03-17. -/
theorem scan_for_preferred_tests_spec
    (grid : List Cell) (beforeStr afterStr : String) (unav : List String)
    (currentTest fmt : String) (minD maxD : PDateTime)
    (hmin : computeMinDate currentTest beforeStr = some minD)
    (hmax : computeMaxDate afterStr = some maxD)
    (hwf : wellFormedGrid grid = true) :
    scan_for_preferred_tests (some grid) beforeStr afterStr unav currentTest fmt =
      (match firstQualifying minD maxD unav fmt grid 0 with
       | some js => (true, some js.2, some js.1)
       | none => (false, none, none)) ∧
    scan_for_preferred_tests (some fixtureGrid) "2025-06-01" "2025-01-01"
      ["2025-03-10"] "Yes" "" = (true, some "2025-03-17", some 2) := by
  constructor
  · unfold scan_for_preferred_tests
    rw [hmin, hmax]
    exact scanLoop_firstQualifying minD maxD unav fmt grid 0 hwf
  · decide

/-- C4 witness: the fixture scan through the theorem. -/
theorem scan_for_preferred_tests_spec_witness :
    scan_for_preferred_tests (some fixtureGrid) "2025-06-01" "2025-01-01"
      ["2025-03-10"] "Yes" "" = (true, some "2025-03-17", some 2) :=
  (scan_for_preferred_tests_spec fixtureGrid "2025-06-01" "2025-01-01"
      ["2025-03-10"] "Yes" "" ⟨toOrd ⟨2025, 6, 1⟩, 0⟩ ⟨toOrd ⟨2025, 1, 1⟩, 0⟩
      (by decide) (by decide) (by decide)).2

/-- Replace the anchor data of every cell marked unavailable by
arbitrary data. -/
def mapUnavailLinks (f : Cell → Option (Option String)) (cells : List Cell) : List Cell :=
  cells.map (fun c => if strContains c.cls unavailMark then ⟨c.cls, f c⟩ else c)

theorem scanLoop_unavail_invariant (minD maxD : PDateTime) (unav : List String)
    (fmt : String) (f : Cell → Option (Option String)) :
    ∀ (cells : List Cell) (i : Nat),
      scanLoop minD maxD unav fmt (mapUnavailLinks f cells) i =
        scanLoop minD maxD unav fmt cells i := by
  intro cells
  induction cells with
  | nil => intro i; rfl
  | cons c rest ih =>
    intro i
    simp only [mapUnavailLinks, List.map]
    by_cases hm : strContains c.cls unavailMark = true
    · rw [if_pos hm]
      show scanLoop minD maxD unav fmt (⟨c.cls, f c⟩ :: List.map _ rest) i = _
      simp only [scanLoop, hm, if_true]
      exact ih (i + 1)
    · rw [if_neg hm]
      have hm' : strContains c.cls unavailMark = false := by simpa using hm
      show scanLoop minD maxD unav fmt (c :: List.map _ rest) i = _
      cases hl : c.link with
      | none =>
        simp only [scanLoop, hm', hl]
        exact ih (i + 1)
      | some a =>
        cases a with
        | none =>
          simp only [scanLoop, hm', hl]
          rfl
        | some s =>
          cases hp : parseYmd s with
          | none =>
            simp only [scanLoop, hm', hl, hp]
            rfl
          | some d =>
            simp only [scanLoop, hm', hl, hp]
            by_cases hcond : (!(unav.contains s) && dtLtB ⟨toOrd d, 0⟩ minD &&
                dtLtB maxD ⟨toOrd d, 0⟩ && weekdayOrd (toOrd d) < 5 && s != fmt) = true
            · rw [if_pos hcond, if_pos hcond]
              rfl
            · rw [if_neg hcond, if_neg hcond]
              exact ih (i + 1)

/-- C7: the scanner's result does not depend on the anchor/date data of
cells marked unavailable — such cells are never inspected for their
date attribute — so it cannot fail when an unavailable cell lacks a
usable date attribute (in particular, replacing every unavailable
cell's anchor data by a `None`-valued date attribute, `f = fun _ =>
some none`, leaves the result unchanged, while the same data on an
available cell would abort the scan). -/
theorem scan_unavailable_never_read
    (f : Cell → Option (Option String)) (grid : List Cell)
    (beforeStr afterStr : String) (unav : List String) (currentTest fmt : String) :
    scan_for_preferred_tests (some (mapUnavailLinks f grid))
        beforeStr afterStr unav currentTest fmt =
      scan_for_preferred_tests (some grid) beforeStr afterStr unav currentTest fmt := by
  unfold scan_for_preferred_tests
  cases hmin : computeMinDate currentTest beforeStr with
  | none => rfl
  | some minD =>
    cases hmax : computeMaxDate afterStr with
    | none => rfl
    | some maxD => exact scanLoop_unavail_invariant minD maxD unav fmt f grid 0

/-- No cell of the grid passes the scanner's filter (trivially true when
a date bound is itself invalid, since the scan then aborts). -/
def noCellQualifies (grid : List Cell) (beforeStr afterStr : String)
    (unav : List String) (currentTest fmt : String) : Bool :=
  match computeMinDate currentTest beforeStr, computeMaxDate afterStr with
  | some minD, some maxD => grid.all (fun c => !(qualifies minD maxD unav fmt c))
  | _, _ => true

theorem scanLoop_noQualify (minD maxD : PDateTime) (unav : List String) (fmt : String) :
    ∀ (cells : List Cell) (i : Nat),
      cells.all (fun c => !(qualifies minD maxD unav fmt c)) = true →
      scanLoop minD maxD unav fmt cells i = (false, none, none) := by
  intro cells
  induction cells with
  | nil => intro i _; rfl
  | cons c rest ih =>
    intro i hall
    simp only [List.all_cons, Bool.and_eq_true, Bool.not_eq_true'] at hall
    have hrest : rest.all (fun c => !(qualifies minD maxD unav fmt c)) = true := by
      simpa using hall.2
    by_cases hm : strContains c.cls unavailMark = true
    · simp only [scanLoop, hm, if_true]
      exact ih (i + 1) hrest
    · have hm' : strContains c.cls unavailMark = false := by simpa using hm
      cases hl : c.link with
      | none =>
        simp only [scanLoop, hm', hl]
        exact ih (i + 1) hrest
      | some a =>
        cases a with
        | none =>
          simp only [scanLoop, hm', hl]
          rfl
        | some s =>
          cases hp : parseYmd s with
          | none =>
            simp only [scanLoop, hm', hl, hp]
            rfl
          | some d =>
            have hq : qualifies minD maxD unav fmt c = false := hall.1
            have hcond : (!(unav.contains s) && dtLtB ⟨toOrd d, 0⟩ minD &&
                dtLtB maxD ⟨toOrd d, 0⟩ && weekdayOrd (toOrd d) < 5 && s != fmt) = false := by
              rw [← hq]
              simp [qualifies, hm', hl, hp]
            simp only [scanLoop, hm', hl, hp, hcond]
            exact ih (i + 1) hrest

/-- C8: when no day cell satisfies all filter criteria the scanner
returns the not-found triple `(False, None, None)`, and it returns the
same triple when the calendar grid element is absent; exceptions the
source would raise on the way are caught by its own handlers, which
produce this very triple. -/
theorem scan_not_found_spec
    (grid : List Cell) (beforeStr afterStr : String) (unav : List String)
    (currentTest fmt : String)
    (hnoq : noCellQualifies grid beforeStr afterStr unav currentTest fmt = true) :
    scan_for_preferred_tests (some grid) beforeStr afterStr unav currentTest fmt
        = (false, none, none) ∧
    scan_for_preferred_tests none beforeStr afterStr unav currentTest fmt
        = (false, none, none) := by
  constructor
  · unfold scan_for_preferred_tests
    unfold noCellQualifies at hnoq
    cases hmin : computeMinDate currentTest beforeStr with
    | none => rfl
    | some minD =>
      cases hmax : computeMaxDate afterStr with
      | none => rfl
      | some maxD =>
        rw [hmin, hmax] at hnoq
        exact scanLoop_noQualify minD maxD unav fmt grid 0 hnoq
  · unfold scan_for_preferred_tests
    cases computeMinDate currentTest beforeStr with
    | none => rfl
    | some minD =>
      cases computeMaxDate afterStr with
      | none => rfl
      | some maxD => rfl

/-- C8 witness: a grid whose only weekday candidates are excluded, and
the absent grid, both give the not-found triple, through the theorem. -/
theorem scan_not_found_spec_witness :
    scan_for_preferred_tests (some fixtureGrid) "2025-06-01" "2025-01-01"
      ["2025-03-10", "2025-03-17"] "Yes" "" = (false, none, none) ∧
    scan_for_preferred_tests none "2025-06-01" "2025-01-01"
      ["2025-03-10", "2025-03-17"] "Yes" "" = (false, none, none) :=
  scan_not_found_spec fixtureGrid "2025-06-01" "2025-01-01"
    ["2025-03-10", "2025-03-17"] "Yes" "" (by decide)

/- ========================================================================
   Events: browser-side effects recorded by the control-flow models
   ======================================================================== -/

/-- Effects on the browser/OS recorded by the models: navigation, a
classification read, typing into a box, clicking an element, clearing a
box, scrolling, a page refresh, a captcha-handler invocation, a
hardware click, an SMS dispatch, a fixed sleep (milliseconds), and a
randomized sleep. -/
inductive Ev where
  | navGet
  | classifyEv (st : PageState)
  | typeKeys (id : String)
  | click (id : String)
  | clear (id : String)
  | scroll
  | refresh
  | captchaAttempt
  | hwClick
  | sms
  | sleepMs (n : Nat)
  | randSleep
deriving DecidableEq, Repr

/- ========================================================================
   Captcha handler (util.solve_captcha)
   ======================================================================== -/

/-- Model of `util.solve_captcha`.  With `skip` it sleeps a fixed 60
seconds and returns False.  Otherwise the body may raise (`raises`
models a WebDriverException from `switch_to`/`page_source`, caught by
the handler that returns False); else the lowered page source is
checked for the Imperva signature, a hardware click plus a randomized
1.5–2.5 s pause happen only when the signature is present, and True is
returned either way. -/
def solve_captcha (skip : Bool) (pageSource : String) (raises : Bool) :
    Bool × List Ev :=
  if skip then (false, [Ev.sleepMs 60000])
  else if raises then (false, [])
  else if strContains (lowerStr pageSource) fwSig1 &&
          strContains (lowerStr pageSource) fwSig2 then
    (true, [Ev.hwClick, Ev.randSleep])
  else (true, [])

/-- C9: in manual mode (`skip = True`) the handler always performs its
fixed 60-second wait and returns False — manual intervention is never
reported as resolved; with `skip = False` it returns True whenever
nothing raises, and when the firewall signature is absent it returns
True having performed no click at all. -/
theorem solve_captcha_spec (pageSource : String) (raises : Bool) :
    (solve_captcha true pageSource raises = (false, [Ev.sleepMs 60000])) ∧
    (raises = false → (solve_captcha false pageSource raises).1 = true) ∧
    (raises = false →
      (strContains (lowerStr pageSource) fwSig1 &&
        strContains (lowerStr pageSource) fwSig2) = false →
      solve_captcha false pageSource raises = (true, [])) := by
  refine ⟨rfl, ?_, ?_⟩
  · intro hr
    subst hr
    by_cases hsig : (strContains (lowerStr pageSource) fwSig1 &&
        strContains (lowerStr pageSource) fwSig2) = true
    · simp [solve_captcha, hsig]
    · have hsig2 : (strContains (lowerStr pageSource) fwSig1 &&
          strContains (lowerStr pageSource) fwSig2) = false :=
        Bool.eq_false_iff.mpr hsig
      simp [solve_captcha, hsig2]
  · intro hr hsig
    subst hr
    unfold solve_captcha
    simp [hsig]

/-- C9 witness: on a clear page with nothing raising, manual mode gives
the 60-second wait and False, automatic mode gives True with no click,
through the theorem. -/
theorem solve_captcha_spec_witness :
    solve_captcha true "all clear" false = (false, [Ev.sleepMs 60000]) ∧
    solve_captcha false "all clear" false = (true, []) :=
  ⟨(solve_captcha_spec "all clear" false).1,
   (solve_captcha_spec "all clear" false).2.2 rfl (by decide)⟩

/- ========================================================================
   Hardware clicker (clicker.hardware_click_range)
   ======================================================================== -/

/-- Model of `clicker.hardware_click_range`.  Coordinates are the
integer pairs the configuration supplies; `rng` supplies the uniform
point inside a valid box; `clickRaises` models a PyAutoGUI failure
inside `_perform_click`, caught by the surrounding handler which then
returns False.  The second component is the point clicked, `none` when
no click was performed. -/
def hardware_click_range (topRight : Int × Int) (bottomLeft : Option (Int × Int))
    (rng : Int × Int → Int × Int → Int × Int) (clickRaises : Bool) :
    Bool × Option (Int × Int) :=
  match bottomLeft with
  | none => if clickRaises then (false, none) else (true, some topRight)
  | some bl =>
    if topRight.1 ≤ bl.1 || topRight.2 ≤ bl.2 then (false, none)
    else if clickRaises then (false, none)
    else (true, some (rng bl topRight))

/-- C10: called with a bounding box whose top-right corner is not
strictly greater than its bottom-left corner in both coordinates, the
function reports the invalid box by returning False and performs no
click. -/
theorem hardware_click_range_invalid_box (topRight bl : Int × Int)
    (rng : Int × Int → Int × Int → Int × Int) (clickRaises : Bool)
    (h : ¬(bl.1 < topRight.1 ∧ bl.2 < topRight.2)) :
    hardware_click_range topRight (some bl) rng clickRaises = (false, none) := by
  have hb : (topRight.1 ≤ bl.1 || topRight.2 ≤ bl.2) = true := by
    rcases not_and_or.mp h with h1 | h1
    · have h2 : topRight.1 ≤ bl.1 := not_lt.mp h1
      simp [h2]
    · have h2 : topRight.2 ≤ bl.2 := not_lt.mp h1
      simp [h2]
  simp only [hardware_click_range]
  rw [hb]
  rfl

/-- C10 witness: the configuration's example coordinates, top-right
(820, 420) against bottom-left (1020, 485), form an invalid box, and
the call returns False with no click, through the theorem. -/
theorem hardware_click_range_invalid_box_witness :
    hardware_click_range (820, 420) (some (1020, 485)) (fun a _ => a) false
      = (false, none) :=
  hardware_click_range_invalid_box (820, 420) (1020, 485) (fun a _ => a) false
    (by decide)

/- ========================================================================
   Queue/firewall retry loop (DVSABot.handle_queue_and_firewall)
   ======================================================================== -/

/-- Environment of the queue/firewall loop: the classification returned
by the n-th `check_firewall_and_queue` call of the session and the
boolean result of the n-th `solve_captcha` call (with the module's
`SOLVE_MANUALLY = False` this is True unless something raised). -/
structure HQFEnv where
  classify : Nat → PageState
  captchaOk : Nat → Bool

/-- Why the loop stopped. -/
inductive HQFExit where
  | status (st : PageState)
  | ceiling
deriving DecidableEq, Repr

/-- State of `handle_queue_and_firewall`: the Python `loop_count`, the
index of the next classification to consume, the number of
captcha-handler invocations, page refreshes and post-loop fallback
refreshes so far, the exit reason once the loop has stopped, and the
recorded events. -/
structure HQFState where
  loopCount : Nat
  idx : Nat
  captchas : Nat
  refreshes : Nat
  fallbacks : Nat
  stop : Option HQFExit
  events : List Ev
deriving DecidableEq, Repr

/-- Loop state on entry to `handle_queue_and_firewall`. -/
def hqfInit : HQFState := ⟨0, 0, 0, 0, 0, none, []⟩

/-- One evaluation of the while-loop head of
`handle_queue_and_firewall`.  A finished loop is left unchanged.  When
`loop_count` has reached `max_queue_checks = 100` the loop exits and
the post-loop fallback refresh fires.  Otherwise one body iteration
consumes the next classification: `queue` sleeps and increments
`loop_count` (the only branch that does); `firewall` invokes the
captcha handler without touching `loop_count`, on a truthy result
sleeps 3 s and consumes a re-classification (adding the 3-minute
escalation sleep if that is still `firewall`), and refreshes the page
either way; `login_required`, `error` and `ok` break out. -/
def hqfStep (env : HQFEnv) (s : HQFState) : HQFState :=
  match s.stop with
  | some _ => s
  | none =>
    if s.loopCount ≥ 100 then
      { s with stop := some .ceiling, fallbacks := s.fallbacks + 1,
               refreshes := s.refreshes + 1, events := s.events ++ [Ev.refresh] }
    else
      match env.classify s.idx with
      | .queue =>
        { s with loopCount := s.loopCount + 1, idx := s.idx + 1,
                 events := s.events ++ [Ev.classifyEv .queue, Ev.randSleep] }
      | .firewall =>
        if env.captchaOk s.captchas then
          { s with idx := s.idx + 2, captchas := s.captchas + 1,
                   refreshes := s.refreshes + 1,
                   events := s.events ++ [Ev.classifyEv .firewall, Ev.randSleep,
                     Ev.captchaAttempt, Ev.sleepMs 3000,
                     Ev.classifyEv (env.classify (s.idx + 1))] ++
                     (if env.classify (s.idx + 1) = .firewall then [Ev.randSleep] else []) ++
                     [Ev.refresh] }
        else
          { s with idx := s.idx + 1, captchas := s.captchas + 1,
                   refreshes := s.refreshes + 1,
                   events := s.events ++ [Ev.classifyEv .firewall, Ev.randSleep,
                     Ev.captchaAttempt, Ev.refresh] }
      | st =>
        { s with stop := some (.status st), idx := s.idx + 1,
                 events := s.events ++ [Ev.classifyEv st] }

/-- `n` head-evaluations of the loop from the initial state. -/
def hqfRun (env : HQFEnv) : Nat → HQFState
  | 0 => hqfInit
  | n + 1 => hqfStep env (hqfRun env n)

/-- A classification sequence consisting entirely of firewall states. -/
def allFirewallEnv : HQFEnv := ⟨fun _ => .firewall, fun _ => true⟩

/-- A classification sequence consisting entirely of queue states. -/
def allQueueEnv : HQFEnv := ⟨fun _ => .queue, fun _ => true⟩

/-- The spec's simulated sequence [queue, queue, firewall, ok, ok, ...]. -/
def qqfoEnv : HQFEnv :=
  ⟨fun i => if i < 2 then .queue else if i = 2 then .firewall else .ok, fun _ => true⟩

set_option maxRecDepth 40000 in
/-- C1 counterexample: on the all-firewall classification sequence the
loop is still running after 201 body iterations — far beyond the
claimed 100-iteration ceiling — with `loop_count` still 0 and 201
captcha-handler invocations performed: the firewall branch never
advances `loop_count`, so the ceiling never applies to it and the loop
retries indefinitely. -/
theorem handle_queue_and_firewall_unbounded :
    (hqfRun allFirewallEnv 201).stop = none ∧
    (hqfRun allFirewallEnv 201).loopCount = 0 ∧
    (hqfRun allFirewallEnv 201).captchas = 201 := by
  refine ⟨?_, ?_, ?_⟩ <;> decide

theorem hqfStep_loopCount_le (env : HQFEnv) (s : HQFState)
    (h : s.loopCount ≤ 100) : (hqfStep env s).loopCount ≤ 100 := by
  unfold hqfStep
  cases hx : s.stop with
  | some e => simpa using h
  | none =>
    by_cases hc : s.loopCount ≥ 100
    · simp only [hc, if_true]
      simpa using h
    · have h99 : s.loopCount + 1 ≤ 100 := by omega
      simp only [hc, if_false]
      cases hcl : env.classify s.idx
      · simpa using h99
      · by_cases hcap : env.captchaOk s.captchas = true <;> simp [hcap] <;> simpa using h
      · simpa using h
      · simpa using h
      · simpa using h

set_option maxRecDepth 40000 in
/-- C1 amended: the iteration ceiling bounds only queue states —
`loop_count` never exceeds 100 and only `queue` classifications advance
it, so an all-queue sequence stops at the ceiling after 100 queue
iterations having performed exactly one fallback refresh (and no
captcha invocation), and stays stopped; on the spec's sequence
[queue, queue, firewall, ok] the loop terminates on `ok` with exactly
one captcha-handler invocation and no fallback refresh.  Firewall
states do not count toward the ceiling (see the counterexample: an
all-firewall sequence retries without bound). -/
theorem handle_queue_and_firewall_queue_ceiling :
    (∀ (env : HQFEnv) (n : Nat), (hqfRun env n).loopCount ≤ 100) ∧
    ((hqfRun allQueueEnv 101).stop = some .ceiling ∧
     (hqfRun allQueueEnv 101).loopCount = 100 ∧
     (hqfRun allQueueEnv 101).fallbacks = 1 ∧
     (hqfRun allQueueEnv 101).captchas = 0 ∧
     (hqfRun allQueueEnv 150).fallbacks = 1 ∧
     (hqfRun allQueueEnv 150).stop = some .ceiling) ∧
    ((hqfRun qqfoEnv 4).stop = some (.status .ok) ∧
     (hqfRun qqfoEnv 4).captchas = 1 ∧
     (hqfRun qqfoEnv 4).fallbacks = 0) := by
  refine ⟨?_, by decide, by decide⟩
  intro env n
  induction n with
  | zero => exact Nat.zero_le 100
  | succ n ih => exact hqfStep_loopCount_le env (hqfRun env n) ih

/- ========================================================================
   Booking finalizer (util.book_test_flow)
   ======================================================================== -/

/-- The slot-taken race marker checked by book_test_flow. -/
def slotTakenText : String := "the time chosen is no longer available"

/-- The Imperva puzzle marker checked in the retry tail. -/
def whySeeingText : String := "Why am I seeing this page"

/-- The marker checked after the final-confirm firewall handling. -/
def impervaText : String := "imperva"

/-- Per-attempt environment of `book_test_flow`: whether the
'i-am-candidate' element is present (consulted only while it has not
yet been clicked; absent means `NoSuchElementException`), whether
something raises between that point and the slot-taken check (the
generic `except Exception` path), the page source read at the
slot-taken check and passed to `solve_captcha`, whether
`solve_captcha`'s body raises, and, for the retry tail after a generic
exception, whether 'main-iframe' is found and the page source then
visible. -/
structure BTFAttempt where
  candidatePresent : Bool
  preRaises : Bool
  pageSrc : String
  captchaRaises : Bool
  tailIframePresent : Bool
  tailPage : String
deriving DecidableEq, Repr

/-- Environment of `book_test_flow`: the per-attempt data, the
`solve_manually` and `auto_book_test` arguments, whether the
'confirm-changes' element exists, whether the confirmation block raises
after the click, and the two post-confirm classifications and the page
source used by the final firewall handling. -/
structure BTFEnv where
  attempts : Nat → BTFAttempt
  solveManually : Bool
  autoBook : Bool
  confirmPresent : Bool
  confirmRaises : Bool
  postStatus1 : PageState
  postStatus2 : PageState
  postPage : String

/-- State of book_test_flow's `for attempt in range(4)` loop: the next
attempt index, the `i_am_candidate_clicked`, `test_taken` and `success`
flags, whether a `break` has run, and the events so far. -/
structure BTFSt where
  k : Nat
  clicked : Bool
  taken : Bool
  success : Bool
  halted : Bool
  events : List Ev
deriving DecidableEq, Repr

/-- Loop state on entry to book_test_flow. -/
def btfInit : BTFSt := ⟨0, false, false, false, false, []⟩

/-- The 'i-am-candidate' click event, emitted only when still pending. -/
def clickEvs (clicked : Bool) : List Ev :=
  if clicked then [] else [Ev.click "i-am-candidate"]

/-- Events of the retry tail after a generic exception: when
'main-iframe' is found and shows the Imperva puzzle marker, a long
randomized sleep and a refresh happen. -/
def tailEvs (a : BTFAttempt) : List Ev :=
  if a.tailIframePresent && strContains a.tailPage whySeeingText then
    [Ev.randSleep, Ev.refresh]
  else []

/-- One body iteration of book_test_flow's loop (assuming no `break`
yet): sleep; if 'i-am-candidate' is pending and absent, the
NoSuchElementException handler sets `success` and breaks — before the
slot-taken check; if something raises first, the generic handler runs
the retry tail and the loop continues; otherwise the slot-taken text
sets `test_taken` and breaks, else `solve_captcha` runs (its boolean
only logged) and `success` breaks. -/
def btfBody (env : BTFEnv) (s : BTFSt) : BTFSt :=
  if !s.clicked && !(env.attempts s.k).candidatePresent then
    { s with k := s.k + 1, success := true, halted := true,
             events := s.events ++ [Ev.sleepMs 300] }
  else if (env.attempts s.k).preRaises then
    { s with k := s.k + 1, clicked := true,
             events := s.events ++ [Ev.sleepMs 300] ++ clickEvs s.clicked ++
               [Ev.sleepMs 1000] ++ tailEvs (env.attempts s.k) }
  else if strContains (lowerStr (env.attempts s.k).pageSrc) slotTakenText then
    { s with k := s.k + 1, clicked := true, taken := true, halted := true,
             events := s.events ++ [Ev.sleepMs 300] ++ clickEvs s.clicked }
  else
    { s with k := s.k + 1, clicked := true, success := true, halted := true,
             events := s.events ++ [Ev.sleepMs 300] ++ clickEvs s.clicked ++
               [Ev.captchaAttempt] ++
               (solve_captcha env.solveManually (env.attempts s.k).pageSrc
                 (env.attempts s.k).captchaRaises).2 }

/-- One loop-head evaluation: a broken loop is unchanged. -/
def btfStep (env : BTFEnv) (s : BTFSt) : BTFSt :=
  if s.halted then s else btfBody env s

/-- `n` loop-head evaluations from the initial state. -/
def btfRun (env : BTFEnv) : Nat → BTFSt
  | 0 => btfInit
  | n + 1 => btfStep env (btfRun env n)

/-- The outcome of book_test_flow: the returned boolean, whether
'confirm-changes' was clicked, and the full event list. -/
structure BTFOut where
  result : Bool
  confirmed : Bool
  events : List Ev
deriving DecidableEq, Repr

/-- Model of book_test_flow's post-loop phase: a slot-taken run and a
run with no successful attempt return False; without auto-book the flow
stops before final confirmation and returns True; with auto-book the
'confirm-changes' click happens (an absent button raises
NoSuchElementException → False before any click; `confirmRaises` models
a later exception → False after the click), then the firewall re-checks
run, failing only when the second classification is still firewall and
the page then shows 'imperva'. -/
def btfFinalize (env : BTFEnv) (s : BTFSt) : BTFOut :=
  if s.taken then ⟨false, false, s.events⟩
  else if !s.success then ⟨false, false, s.events⟩
  else if !env.autoBook then ⟨true, false, s.events⟩
  else if !env.confirmPresent then ⟨false, false, s.events⟩
  else
    if env.confirmRaises then
      ⟨false, true, s.events ++ [Ev.click "confirm-changes", Ev.sleepMs 1000]⟩
    else
      if env.postStatus1 = .firewall then
        if env.postStatus2 = .firewall then
          if strContains (lowerStr env.postPage) impervaText then
            ⟨false, true, s.events ++ [Ev.click "confirm-changes", Ev.sleepMs 1000,
              Ev.classifyEv env.postStatus1, Ev.randSleep, Ev.refresh,
              Ev.classifyEv env.postStatus2, Ev.captchaAttempt] ++
              (solve_captcha env.solveManually env.postPage false).2⟩
          else
            ⟨true, true, s.events ++ [Ev.click "confirm-changes", Ev.sleepMs 1000,
              Ev.classifyEv env.postStatus1, Ev.randSleep, Ev.refresh,
              Ev.classifyEv env.postStatus2, Ev.captchaAttempt] ++
              (solve_captcha env.solveManually env.postPage false).2⟩
        else
          ⟨true, true, s.events ++ [Ev.click "confirm-changes", Ev.sleepMs 1000,
            Ev.classifyEv env.postStatus1, Ev.randSleep, Ev.refresh,
            Ev.classifyEv env.postStatus2]⟩
      else
        ⟨true, true, s.events ++ [Ev.click "confirm-changes", Ev.sleepMs 1000,
          Ev.classifyEv env.postStatus1]⟩

/-- Model of `util.book_test_flow`: four loop iterations, then the
confirmation phase. -/
def book_test_flow (env : BTFEnv) : BTFOut := btfFinalize env (btfRun env 4)

theorem btfStep_halted (env : BTFEnv) (s : BTFSt) (h : s.halted = true) :
    btfStep env s = s := by
  simp [btfStep, h]

theorem btfRun_stable (env : BTFEnv) (m : Nat) (hm : (btfRun env m).halted = true) :
    ∀ n, m ≤ n → btfRun env n = btfRun env m := by
  intro n hn
  induction n, hn using Nat.le_induction with
  | base => rfl
  | succ n hmn ih =>
    show btfStep env (btfRun env n) = _
    rw [ih, btfStep_halted env _ hm]

theorem btfBody_k (env : BTFEnv) (s : BTFSt) : (btfBody env s).k = s.k + 1 := by
  unfold btfBody
  split
  · rfl
  · split
    · rfl
    · split
      · rfl
      · rfl

theorem btfRun_k (env : BTFEnv) :
    ∀ n, (btfRun env n).halted = false → (btfRun env n).k = n := by
  intro n
  induction n with
  | zero => intro _; rfl
  | succ n ih =>
    intro h
    have h' : (btfStep env (btfRun env n)).halted = false := h
    by_cases hh : (btfRun env n).halted = true
    · rw [btfStep_halted env _ hh] at h'
      rw [hh] at h'
      cases h'
    · have hnf : (btfRun env n).halted = false := Bool.eq_false_iff.mpr hh
      show (btfStep env (btfRun env n)).k = n + 1
      rw [btfStep, if_neg (by rw [hnf]; exact fun hc => Bool.noConfusion hc)]
      rw [btfBody_k, ih hnf]

theorem btfBody_slot_taken (env : BTFEnv) (s : BTFSt)
    (hcand : s.clicked = false → (env.attempts s.k).candidatePresent = true)
    (hpre : (env.attempts s.k).preRaises = false)
    (htext : strContains (lowerStr (env.attempts s.k).pageSrc) slotTakenText = true) :
    (btfBody env s).taken = true ∧ (btfBody env s).halted = true ∧
    (btfBody env s).k = s.k + 1 := by
  have hc1 : (!s.clicked && !(env.attempts s.k).candidatePresent) = false := by
    cases hc : s.clicked with
    | true => simp
    | false => simp [hcand hc]
  unfold btfBody
  simp only [hc1, hpre, htext]
  exact ⟨rfl, rfl, rfl⟩

/-- C5 amended: if the slot-taken text is on the page at an attempt
that reaches the slot-taken check — the loop is still running, the
'i-am-candidate' element is present whenever it is still pending, and
nothing raises before the check — book_test_flow breaks out at exactly
that attempt, performs no further attempts, and returns the slot-taken
failure outcome (False, nothing confirmed).  When the check is
preempted by a missing 'i-am-candidate' element the flow instead
reports success: see the counterexample. -/
theorem book_test_flow_slot_taken (env : BTFEnv) (k : Nat) (hk : k < 4)
    (hrun : (btfRun env k).halted = false)
    (hcand : (btfRun env k).clicked = false → (env.attempts k).candidatePresent = true)
    (hpre : (env.attempts k).preRaises = false)
    (htext : strContains (lowerStr (env.attempts k).pageSrc) slotTakenText = true) :
    (btfRun env 4).taken = true ∧ (btfRun env 4).k = k + 1 ∧
    (book_test_flow env).result = false ∧ (book_test_flow env).confirmed = false := by
  have hkk : (btfRun env k).k = k := btfRun_k env k hrun
  have hcand2 : (btfRun env k).clicked = false →
      (env.attempts (btfRun env k).k).candidatePresent = true := by
    rw [hkk]; exact hcand
  have hpre2 : (env.attempts (btfRun env k).k).preRaises = false := by
    rw [hkk]; exact hpre
  have htext2 : strContains (lowerStr (env.attempts (btfRun env k).k).pageSrc)
      slotTakenText = true := by
    rw [hkk]; exact htext
  have hbody := btfBody_slot_taken env (btfRun env k) hcand2 hpre2 htext2
  have hstep : btfRun env (k + 1) = btfBody env (btfRun env k) := by
    show btfStep env (btfRun env k) = _
    unfold btfStep
    rw [if_neg (by rw [hrun]; exact fun hc => Bool.noConfusion hc)]
  have hhalt : (btfRun env (k + 1)).halted = true := by
    rw [hstep]; exact hbody.2.1
  have hstable : btfRun env 4 = btfRun env (k + 1) :=
    btfRun_stable env (k + 1) hhalt 4 (by omega)
  have htaken4 : (btfRun env 4).taken = true := by
    rw [hstable, hstep]; exact hbody.1
  have hk4 : (btfRun env 4).k = k + 1 := by
    rw [hstable, hstep, hbody.2.2, hkk]
  refine ⟨htaken4, hk4, ?_, ?_⟩
  · unfold book_test_flow btfFinalize
    rw [htaken4]
    rfl
  · unfold book_test_flow btfFinalize
    rw [htaken4]
    rfl

/-- Environment where every attempt shows the slot-taken text and the
'i-am-candidate' button is present. -/
def slotTakenEnv : BTFEnv :=
  ⟨fun _ => ⟨true, false, "The time chosen is no longer available", false, false, ""⟩,
   false, false, true, false, .ok, .ok, ""⟩

/-- C5 witness: with the button present and the slot-taken text shown,
the first attempt detects the race and the flow fails, through the
theorem. -/
theorem book_test_flow_slot_taken_witness :
    (btfRun slotTakenEnv 4).taken = true ∧
    (btfRun slotTakenEnv 4).k = 1 ∧
    (book_test_flow slotTakenEnv).result = false :=
  ⟨(book_test_flow_slot_taken slotTakenEnv 0 (by omega) (by decide)
      (fun _ => by decide) (by decide) (by decide)).1,
   (book_test_flow_slot_taken slotTakenEnv 0 (by omega) (by decide)
      (fun _ => by decide) (by decide) (by decide)).2.1,
   (book_test_flow_slot_taken slotTakenEnv 0 (by omega) (by decide)
      (fun _ => by decide) (by decide) (by decide)).2.2.1⟩

/-- Environment where the slot-taken text is on the page but the
'i-am-candidate' element is absent at every attempt. -/
def slotTakenNoButtonEnv : BTFEnv :=
  ⟨fun _ => ⟨false, false, "The time chosen is no longer available", false, false, ""⟩,
   false, false, true, false, .ok, .ok, ""⟩

/-- C5 counterexample: the page contains the slot-taken text at the
first booking attempt, yet because the 'i-am-candidate' element is
absent the NoSuchElementException handler marks the run successful and
breaks before the slot-taken check ever runs: the flow returns True
(reserved) with `test_taken` still False, not the slot-taken failure
outcome the claim requires. -/
theorem book_test_flow_slot_taken_cex :
    strContains (lowerStr ((slotTakenNoButtonEnv.attempts 0).pageSrc)) slotTakenText = true ∧
    (btfRun slotTakenNoButtonEnv 4).taken = false ∧
    (book_test_flow slotTakenNoButtonEnv).result = true := by
  refine ⟨by decide, by decide, by decide⟩

/-- C6: for a run whose reservation phase succeeded (no slot-taken
race, a successful attempt), the final confirmation 'confirm-changes'
is clicked if and only if the auto-book flag is set (given the button
exists); with the flag unset the flow stops before final confirmation,
clicks no confirmation, and returns True — the stopped-before-
confirmation outcome is a successful reservation hold, not a failure. -/
theorem book_test_flow_confirm_iff (env : BTFEnv)
    (htaken : (btfRun env 4).taken = false)
    (hsucc : (btfRun env 4).success = true) :
    (env.autoBook = false →
      (book_test_flow env).result = true ∧ (book_test_flow env).confirmed = false) ∧
    (env.autoBook = true → env.confirmPresent = true →
      (book_test_flow env).confirmed = true) ∧
    ((book_test_flow env).confirmed = true → env.autoBook = true) := by
  simp only [book_test_flow, btfFinalize, htaken, hsucc]
  refine ⟨?_, ?_, ?_⟩
  · intro hab
    simp [hab]
  · intro hab hcp
    simp only [hab, hcp]
    by_cases hcr : env.confirmRaises = true
    · simp [hcr]
    · simp only [Bool.eq_false_iff.mpr hcr]
      by_cases h1 : env.postStatus1 = .firewall
      · simp only [h1]
        by_cases h2 : env.postStatus2 = .firewall
        · simp only [h2]
          by_cases h3 : strContains (lowerStr env.postPage) impervaText = true
          · simp [h3]
          · simp [Bool.eq_false_iff.mpr h3]
        · simp [h2]
      · simp [h1]
  · intro hconf
    by_cases hab : env.autoBook = true
    · exact hab
    · have hab2 : env.autoBook = false := Bool.eq_false_iff.mpr hab
      simp [hab2] at hconf

/-- Environment of a clean reservation run with auto-book disabled. -/
def reservedEnv : BTFEnv :=
  ⟨fun _ => ⟨true, false, "choose a time for your test", false, false, ""⟩,
   false, false, true, false, .ok, .ok, ""⟩

/-- C6 witness: with auto-book disabled and a clean reservation run,
the flow returns True without clicking the confirmation, through the
theorem. -/
theorem book_test_flow_confirm_iff_witness :
    (book_test_flow reservedEnv).result = true ∧
    (book_test_flow reservedEnv).confirmed = false :=
  (book_test_flow_confirm_iff reservedEnv (by decide) (by decide)).1 rfl

/- ========================================================================
   Login and search (DVSABot.login, DVSABot.search_and_book)
   ======================================================================== -/

/-- Environment of `DVSABot.login`: the classification stream and
captcha-result stream (consumed in call order across the whole login),
whether the 'booking-login' button exists, whether the post-login URL
carries `loginError=true`, whether the page says the booking was
cancelled, whether the summary try-block raises, and whether the
preferences mark the current test date "Yes". -/
structure LoginEnv where
  classify : Nat → PageState
  captchaOk : Nat → Bool
  loginBtnPresent : Bool
  loginErrorUrl : Bool
  cancelled : Bool
  parseRaises : Bool
  currentTestYes : Bool

/-- Result of `DVSABot.login`: the session's `active` flag, the final
post-login classification when that check was reached, and the events. -/
structure LoginOut where
  active : Bool
  finalStatus : Option PageState
  trace : List Ev
deriving DecidableEq, Repr

/-- Events of `enter_reschedule_credentials` (manual = False): typing
both credentials, a sleep, then the 'booking-login' click and a sleep
when the button exists (a missing button is logged only). -/
def credsEvents (btnPresent : Bool) : List Ev :=
  [Ev.typeKeys "driving-licence-number", Ev.typeKeys "application-reference-number",
   Ev.randSleep] ++
  (if btnPresent then [Ev.click "booking-login", Ev.randSleep] else [])

/-- The post-credentials firewall check of `login` (its step 3): one
classification; on firewall a sleep and a captcha attempt, on the
attempt's truthy result a 3 s sleep and a re-classification (with a
further long sleep if still firewall), then a refresh.  Returns the
next classification index, the next captcha index, and the events. -/
def loginFwBlock (env : LoginEnv) (idx cap : Nat) : Nat × Nat × List Ev :=
  if env.classify idx = .firewall then
    if env.captchaOk cap then
      (idx + 2, cap + 1,
        [Ev.classifyEv (env.classify idx), Ev.randSleep, Ev.captchaAttempt,
         Ev.sleepMs 3000, Ev.classifyEv (env.classify (idx + 1))] ++
        (if env.classify (idx + 1) = .firewall then [Ev.randSleep] else []) ++
        [Ev.refresh])
    else
      (idx + 1, cap + 1,
        [Ev.classifyEv (env.classify idx), Ev.randSleep, Ev.captchaAttempt, Ev.refresh])
  else (idx + 1, cap, [Ev.classifyEv (env.classify idx)])

/-- The summary try-block of `login`: an exception anywhere inside
marks the session inactive (the partial events of an interrupted block
are approximated by the empty list — only `active` and `finalStatus`
matter to the theorems); a cancelled booking marks it inactive;
otherwise the "Yes"/centre-change navigation clicks happen and the
final classification decides `active`: false on any of firewall,
queue, error, login_required, true otherwise. -/
def loginTryBlock (env : LoginEnv) (idx : Nat) : LoginOut :=
  if env.parseRaises then ⟨false, none, []⟩
  else if env.cancelled then ⟨false, none, []⟩
  else
    ⟨if env.classify idx = .firewall ∨ env.classify idx = .queue ∨
        env.classify idx = .error ∨ env.classify idx = .login_required
      then false else true,
     some (env.classify idx),
     (if env.currentTestYes then
        [Ev.click "date-time-change", Ev.randSleep, Ev.click "test-choice-earliest",
         Ev.randSleep, Ev.scroll, Ev.randSleep, Ev.click "driving-licence-submit",
         Ev.randSleep]
      else
        [Ev.click "test-centre-change", Ev.randSleep, Ev.clear "test-centres-input",
         Ev.typeKeys "test-centres-input", Ev.click "test-centres-submit",
         Ev.randSleep, Ev.click "results-link"]) ++
     [Ev.classifyEv (env.classify idx)]⟩

/-- The part of `DVSABot.login` that follows the queue/firewall loop,
as a function of the loop's final state: `none` when the loop never
finished; otherwise the credentials are entered, the post-credentials
firewall check runs, a `loginError` URL deactivates the session, else
the summary block decides `active`. -/
def loginAfterQueue (env : LoginEnv) (s : HQFState) : Option LoginOut :=
  match s.stop with
  | none => none
  | some _ =>
    if env.loginErrorUrl then
      some ⟨false, none,
        [Ev.navGet] ++ s.events ++ credsEvents env.loginBtnPresent ++
          (loginFwBlock env s.idx s.captchas).2.2⟩
    else
      some ⟨(loginTryBlock env (loginFwBlock env s.idx s.captchas).1).active,
            (loginTryBlock env (loginFwBlock env s.idx s.captchas).1).finalStatus,
            [Ev.navGet] ++ s.events ++ credsEvents env.loginBtnPresent ++
              (loginFwBlock env s.idx s.captchas).2.2 ++
              (loginTryBlock env (loginFwBlock env s.idx s.captchas).1).trace⟩

/-- Model of `DVSABot.login` (reschedule flow): navigate to the queue
URL, run `handle_queue_and_firewall` for at most `fuel` loop-head
evaluations (`none` when the loop has not finished within them — it can
retry unboundedly), then the rest of the login. -/
def login (env : LoginEnv) (fuel : Nat) : Option LoginOut :=
  loginAfterQueue env (hqfRun ⟨env.classify, env.captchaOk⟩ fuel)

/-- A browser-interaction event, as opposed to a pure read or a wait. -/
def isInteraction : Ev → Bool
  | .navGet => true
  | .typeKeys _ => true
  | .click _ => true
  | .clear _ => true
  | .scroll => true
  | .refresh => true
  | .captchaAttempt => true
  | .hwClick => true
  | _ => false

/-- Claim-side check: some interaction event follows an `error`
classification (a terminal failure state) somewhere in the trace. -/
def interactionAfterError : List Ev → Bool
  | [] => false
  | Ev.classifyEv .error :: rest => rest.any isInteraction || interactionAfterError rest
  | _ :: rest => interactionAfterError rest

/-- How search_and_book's centre-change block ends. -/
inductive CentreOutcome where
  | okFlow
  | missing
  | raised
deriving DecidableEq, Repr

/-- Environment of `DVSABot.search_and_book`: the centre list, how the
centre-change block ends, the classification its
NoSuchElementException handler reads, whether the page says no tests
are available, the classification after centre selection, the calendar
grid and the scan inputs, whether the booking block raises, the
month-navigation click count the calendar needs, whether the slot is
short notice, and the book_test_flow environment. -/
structure SBEnv where
  centres : List String
  centreOutcome : CentreOutcome
  statusOnMissing : PageState
  noTests : Bool
  statusAfterCentre : PageState
  grid : Option (List Cell)
  beforeStr : String
  afterStr : String
  unavailableDates : List String
  currentTest : String
  formattedTest : String
  bookingRaises : Bool
  monthNavClicks : Nat
  shortNotice : Bool
  btf : BTFEnv

/-- Result of `search_and_book`: the session's `active` flag, the next
centre index, the events, and book_test_flow's boolean when it ran. -/
structure SBOut where
  active : Bool
  idx : Nat
  trace : List Ev
  booked : Option Bool
deriving DecidableEq, Repr

/-- Events of the centre-change block (the events of a block
interrupted by an exception are approximated by the full block — only
`active` and the empty-trace guard matter to the theorems). -/
def centreChangeEvents : List Ev :=
  [Ev.click "change-test-centre", Ev.randSleep, Ev.clear "test-centres-input",
   Ev.typeKeys "test-centres-input", Ev.click "test-centres-submit", Ev.randSleep,
   Ev.click "results-link", Ev.randSleep]

/-- Events of the booking block before book_test_flow: the
month-navigation clicks (the source loop runs at most 12 times), the
date click, the two SMS dispatches, the slot label click and
submissions. -/
def bookingPrepEvents (monthNav : Nat) : List Ev :=
  (List.replicate (min monthNav 12) (Ev.click "BookingCalendar-nav--prev")) ++
  [Ev.click "date-el", Ev.sms, Ev.sms, Ev.click "slot-label", Ev.sleepMs 200,
   Ev.click "slot-chosen-submit", Ev.sleepMs 400, Ev.click "slot-warning-continue",
   Ev.randSleep]

/-- Model of `DVSABot.search_and_book`: an inactive session returns at
once with no page interaction; an empty centre list likewise after
logging; otherwise the centre rotation advances and the centre-change
block runs — its NoSuchElementException handler classifies the page
and deactivates the session on any non-ok state, any other exception
deactivates directly; then the no-tests text check, a classification
deactivating on any non-ok state, the calendar scan (returning when
nothing matches), and the booking block (whose own exception returns
without deactivating) ending in book_test_flow. -/
def search_and_book (env : SBEnv) (active : Bool) (idx : Nat) : SBOut :=
  if !active then ⟨active, idx, [], none⟩
  else if env.centres.isEmpty then ⟨active, idx, [], none⟩
  else
    let idx2 := (idx + 1) % env.centres.length
    match env.centreOutcome with
    | .raised => ⟨false, idx2, centreChangeEvents, none⟩
    | .missing =>
      if env.statusOnMissing = .error ∨ env.statusOnMissing = .queue ∨
         env.statusOnMissing = .firewall ∨ env.statusOnMissing = .login_required then
        ⟨false, idx2, centreChangeEvents ++ [Ev.classifyEv env.statusOnMissing], none⟩
      else ⟨active, idx2, centreChangeEvents ++ [Ev.classifyEv env.statusOnMissing], none⟩
    | .okFlow =>
      if env.noTests then ⟨active, idx2, centreChangeEvents, none⟩
      else if env.statusAfterCentre ≠ .ok then
        ⟨false, idx2, centreChangeEvents ++ [Ev.classifyEv env.statusAfterCentre], none⟩
      else
        if !(scan_for_preferred_tests env.grid env.beforeStr env.afterStr
              env.unavailableDates env.currentTest env.formattedTest).1 then
          ⟨active, idx2, centreChangeEvents ++ [Ev.classifyEv env.statusAfterCentre], none⟩
        else if env.bookingRaises then
          ⟨active, idx2, centreChangeEvents ++ [Ev.classifyEv env.statusAfterCentre], none⟩
        else
          ⟨active, idx2,
           centreChangeEvents ++ [Ev.classifyEv env.statusAfterCentre] ++
             bookingPrepEvents env.monthNavClicks ++ (book_test_flow env.btf).events,
           some (book_test_flow env.btf).result⟩

theorem loginTryBlock_active (env : LoginEnv) (idx : Nat)
    (h : (loginTryBlock env idx).active = true) :
    (loginTryBlock env idx).finalStatus = some .ok := by
  unfold loginTryBlock at h ⊢
  by_cases hp : env.parseRaises = true
  · simp [hp] at h
  · simp only [Bool.eq_false_iff.mpr hp, Bool.false_eq_true, if_false] at h ⊢
    by_cases hcB : env.cancelled = true
    · simp [hcB] at h
    · simp only [Bool.eq_false_iff.mpr hcB, Bool.false_eq_true, if_false] at h ⊢
      cases hfin : env.classify idx <;> simp [hfin] at h ⊢

/-- The classification stream error, ok, ok, ... with everything else
benign and the current test date marked "Yes". -/
def errorThenOkEnv : LoginEnv :=
  ⟨fun i => if i = 0 then .error else .ok, fun _ => true, true, false, false, false, true⟩

/-- C2 counterexample: a login run whose queue/firewall loop observes
the terminal `error` classification first: the loop breaks, but
`login` carries straight on — credentials are typed and pages are
clicked after that classification — and with the final post-login
classification `ok` the session ends with `active = True`.  The
terminal classification neither forced `active` false at that moment
nor stopped page interaction, refuting the claimed invariant. -/
theorem login_active_after_error_cex :
    ((login errorThenOkEnv 10).map (fun r => r.active) = some true) ∧
    ((login errorThenOkEnv 10).map (fun r => interactionAfterError r.trace) = some true) := by
  refine ⟨by decide, by decide⟩

/-- C2 amended: terminal classifications observed during the
queue/firewall loop or mid-login do not force `active` false (see the
counterexample); what holds is: `login` ends with `active` true only
when its final post-login classification is reached and is `ok`; a
login-error URL always forces `active` false; `search_and_book` with
`active` false performs no page interaction at all and returns
unchanged; and `search_and_book` forces `active` false when its
post-centre classification is any non-ok state. -/
theorem session_active_discipline :
    (∀ (env : LoginEnv) (fuel : Nat) (out : LoginOut),
      login env fuel = some out → out.active = true → out.finalStatus = some .ok) ∧
    (∀ (env : LoginEnv) (fuel : Nat) (out : LoginOut),
      login env fuel = some out → env.loginErrorUrl = true → out.active = false) ∧
    (∀ (env : SBEnv) (idx : Nat),
      search_and_book env false idx = ⟨false, idx, [], none⟩) ∧
    (∀ (env : SBEnv) (idx : Nat), env.centres.isEmpty = false →
      env.centreOutcome = .okFlow → env.noTests = false →
      env.statusAfterCentre ≠ .ok →
      (search_and_book env true idx).active = false) := by
  refine ⟨?_, ?_, ?_, ?_⟩
  · intro env fuel out h hact
    unfold login loginAfterQueue at h
    cases hstop : (hqfRun ⟨env.classify, env.captchaOk⟩ fuel).stop with
    | none =>
      rw [hstop] at h
      cases h
    | some e =>
      rw [hstop] at h
      by_cases hurl : env.loginErrorUrl = true
      · simp only [hurl, if_true] at h
        cases h
        exact Bool.noConfusion hact
      · simp only [Bool.eq_false_iff.mpr hurl, Bool.false_eq_true, if_false] at h
        cases h
        exact loginTryBlock_active env _ hact
  · intro env fuel out h hurl
    unfold login loginAfterQueue at h
    cases hstop : (hqfRun ⟨env.classify, env.captchaOk⟩ fuel).stop with
    | none =>
      rw [hstop] at h
      cases h
    | some e =>
      rw [hstop] at h
      simp only [hurl, if_true] at h
      cases h
      rfl
  · intro env idx
    rfl
  · intro env idx hne hco hnt hst
    simp [search_and_book, hne, hco, hnt, hst]

/-- An idle search environment (used only to instantiate the theorem). -/
def sbIdleEnv : SBEnv :=
  ⟨["Leeds"], .okFlow, .ok, true, .ok, none, "", "", [], "", "", false, 0, false,
   reservedEnv⟩

/-- A search environment whose post-centre classification is firewall. -/
def sbBadStatusEnv : SBEnv :=
  ⟨["Leeds"], .okFlow, .ok, false, .firewall, none, "", "", [], "", "", false, 0, false,
   reservedEnv⟩

/-- C2 amended witness: through the theorem — the concrete
error-then-ok login run ends with final classification `ok`; an
inactive search performs no interaction; a firewall classification
after centre selection forces `active` false. -/
theorem session_active_discipline_witness :
    ((login errorThenOkEnv 10).getD ⟨false, none, []⟩).finalStatus
        = some PageState.ok ∧
    search_and_book sbIdleEnv false 0 = ⟨false, 0, [], none⟩ ∧
    (search_and_book sbBadStatusEnv true 0).active = false := by
  refine ⟨?_, ?_, ?_⟩
  · exact session_active_discipline.1 errorThenOkEnv 10
      ((login errorThenOkEnv 10).getD ⟨false, none, []⟩) (by decide) (by decide)
  · exact session_active_discipline.2.2.1 sbIdleEnv 0
  · exact session_active_discipline.2.2.2 sbBadStatusEnv 0 (by decide) rfl rfl
      (by decide)
